import Mathlib

/-!
Verification of the transfer pipeline of `bot.py` (YouTube / direct-file to
Google Drive relay bot).

The Python source is shallowly embedded below. Conventions used throughout:

* Python exceptions are `Except String α`: a raised exception is `.error msg`,
  a `try/except` is a `match` on the `Except` value.
* External capabilities (the chat platform download, the yt-dlp extraction
  engine, the Drive chunk iterator, the UI-message edit) are parameters: each
  is an `Except`-valued input standing for one awaited call and its outcome.
* `time.time()` values are abstract `Nat` "time units"; Python float
  subtraction `a - b < c` agrees with truncated `Nat` subtraction on every
  branch taken here (when `a < b` both sides take the "too early" branch).
* Python truthiness tests (`if total_bytes:`, `if not self.total_size:`,
  `if media.file_name:`) are made explicit by `truthyNat` / `truthyStr`.
* Rendered progress text (percentages, bars, human-readable sizes computed
  with floats) is not modelled: no claim concerns the rendered characters,
  only whether an emission happens and whether sink failures escape.
-/

namespace Bot

/-- Python truthiness of an optional integer (`None` and `0` are falsy). -/
def truthyNat : Option Nat → Bool
  | some n => n != 0
  | none => false

/-- Python truthiness of an optional string (`None` and `""` are falsy). -/
def truthyStr : Option String → Bool
  | some s => s != ""
  | none => false

/-- The `self.download_progress` dict of `ProgressTracker.__init__`
(bot.py lines 141-147). The `last_update` key of the dict is written at
initialisation and never read afterwards; it is kept for fidelity. -/
structure DownloadProgress where
  downloaded : Nat
  total : Nat
  speed : Option Nat
  quality : Option String
  last_update_key : Nat
  deriving Repr, DecidableEq

/-- The mutable state of one `ProgressTracker` instance (bot.py lines
131-148). The `progress_msg` handle is modelled as the sink argument of the
emitting operations; `progress_lock` is modelled by sequential state
passing (each update owns the state for its whole critical section). -/
structure ProgressTracker where
  file_name : String
  total_size : Option Nat
  uploaded_size : Nat
  start_time : Nat
  last_update : Nat
  download_progress : DownloadProgress
  deriving Repr, DecidableEq

/-- `ProgressTracker.__init__(progress_msg, file_name, total_size=None)`. -/
def initTracker (file_name : String) (total_size : Option Nat) (now : Nat) :
    ProgressTracker :=
  { file_name := file_name
    total_size := total_size
    uploaded_size := 0
    start_time := now
    last_update := 0
    download_progress :=
      { downloaded := 0, total := 0, speed := none, quality := none
        last_update_key := 0 } }

/-- `ProgressTracker.update_download_sync` (bot.py lines 165-174):
`downloaded` is overwritten unconditionally; `total`, `speed` and `quality`
only under a Python truthiness guard (`if total_bytes:` etc.). -/
def update_download_sync (t : ProgressTracker) (downloaded_bytes : Nat)
    (total_bytes : Option Nat) (speed : Option Nat) (quality : Option String) :
    ProgressTracker :=
  { t with download_progress :=
      { t.download_progress with
          downloaded := downloaded_bytes
          total :=
            if truthyNat total_bytes then total_bytes.getD 0
            else t.download_progress.total
          speed :=
            if truthyNat speed then speed else t.download_progress.speed
          quality :=
            if truthyStr quality then quality
            else t.download_progress.quality } }

/-- The `try: await self.progress_msg.edit_text(...) except Exception: pass`
pattern (bot.py lines 220-223 and 267-270): any outcome of the sink call is
mapped to a normal return. -/
def try_edit (sink : Except String Unit) : Except String Unit :=
  match sink with
  | .ok _ => .ok ()
  | .error _ => .ok ()

/-- `ProgressTracker.check_and_update_download` (bot.py lines 176-223).
Returns the tracker state after the call together with `true` exactly when a
progress snapshot was rendered and pushed at the sink. The `sink` argument
is the outcome `progress_msg.edit_text` would have on this call. -/
def check_and_update_download (t : ProgressTracker) (current_time : Nat)
    (sink : Except String Unit) : Except String (ProgressTracker × Bool) :=
  if current_time - t.last_update < 3 then .ok (t, false)
  else if t.download_progress.downloaded = 0 then .ok (t, false)
  else
    match try_edit sink with
    | .ok _ => .ok ({ t with last_update := current_time }, true)
    | .error e => .error e

/-- `ProgressTracker.update_upload` (bot.py lines 225-270). Note that the
guards are `if not self.total_size: return` and the 2-unit cooldown only:
the `uploaded_bytes` argument is rendered but never gates the emission and
is never stored. -/
def update_upload (t : ProgressTracker) (current_time : Nat)
    (uploaded_bytes : Nat) (sink : Except String Unit) :
    Except String (ProgressTracker × Bool) :=
  if !(truthyNat t.total_size) then .ok (t, false)
  else if current_time - t.last_update < 2 then .ok (t, false)
  else
    match try_edit sink with
    | .ok _ => .ok ({ t with last_update := current_time }, true)
    | .error e => .error e

/-- Whether one call to `check_and_update_download` rendered an emission. -/
def emittedD (t : ProgressTracker) (now : Nat) (sink : Except String Unit) :
    Bool :=
  match check_and_update_download t now sink with
  | .ok (_, b) => b
  | .error _ => false

/-- Tracker state after one call to `check_and_update_download`. -/
def nextD (t : ProgressTracker) (now : Nat) (sink : Except String Unit) :
    ProgressTracker :=
  match check_and_update_download t now sink with
  | .ok (s, _) => s
  | .error _ => t

/-- Whether one call to `update_upload` rendered an emission. -/
def emittedU (t : ProgressTracker) (now : Nat) (uploaded_bytes : Nat)
    (sink : Except String Unit) : Bool :=
  match update_upload t now uploaded_bytes sink with
  | .ok (_, b) => b
  | .error _ => false

/-- Tracker state after one call to `update_upload`. -/
def nextU (t : ProgressTracker) (now : Nat) (uploaded_bytes : Nat)
    (sink : Except String Unit) : ProgressTracker :=
  match update_upload t now uploaded_bytes sink with
  | .ok (s, _) => s
  | .error _ => t

/-- The selector the `best` key maps to (also the fallback default of
`format_options.get(quality, format_options["best"])`). -/
def best_format : String := "bestvideo[height<=1080]+bestaudio/best"

/-- The `format_options` dict of `YouTubeDownloader._get_format_string`
(bot.py lines 304-311). -/
def format_options : List (String × String) :=
  [("best", best_format),
   ("1080p", "bestvideo[height<=1080]+bestaudio/best[height<=1080]/best"),
   ("720p", "bestvideo[height<=720]+bestaudio/best[height<=720]/best"),
   ("480p", "bestvideo[height<=480]+bestaudio/best[height<=480]/best"),
   ("360p", "bestvideo[height<=360]+bestaudio/best[height<=360]/best"),
   ("audio", "bestaudio/best")]

/-- `YouTubeDownloader._get_format_string` (bot.py lines 302-313):
`format_options.get(quality, format_options["best"])`. -/
def get_format_string (quality : String) : String :=
  (format_options.lookup quality).getD best_format

/-- Python `max(files, key=os.path.getsize)` over a non-empty listing
(bot.py line 598): scan left to right, replace the current best only on a
strictly larger size, so the first maximum wins ties. An entry is the pair
(file name, byte size reported by `os.path.getsize`). -/
def select_largest (first : String × Nat) (rest : List (String × Nat)) :
    String × Nat :=
  rest.foldl (fun acc x => if x.2 > acc.2 then x else acc) first

/-- The directory branch of `handle_file` (bot.py lines 594-598): an empty
listing raises `RuntimeError("Downloaded photo directory is empty")`, else
the largest file becomes the staged artifact. -/
def stage_directory (entries : List (String × Nat)) : Except String String :=
  match entries with
  | [] => .error "Downloaded photo directory is empty"
  | e :: es => .ok (select_largest e es).1

/-- Python slicing `s[:n]` on code points. -/
def py_take (s : String) (n : Nat) : String := String.mk (s.data.take n)

/-- `safe_title = video_title[:50] + ('...' if len(video_title) > 50 else '')`
(bot.py line 378). -/
def safe_title (video_title : String) : String :=
  py_take video_title 50 ++ (if video_title.length > 50 then "..." else "")

/-- The display name set on the tracker during download,
`self.progress_tracker.file_name = f"{safe_title}.mp4"` (bot.py line 379). -/
def download_display_name (video_title : String) : String :=
  safe_title video_title ++ ".mp4"

/-- Python `str.endswith` on code points (`file.endswith(...)`,
bot.py line 386). -/
def ends_with (s suffix : String) : Bool := suffix.data.isSuffixOf s.data

/-- Container extensions accepted by the post-download scan
(bot.py line 386). -/
def video_exts : List String := [".mp4", ".mkv", ".webm", ".avi"]

/-- The post-download scan of `YouTubeDownloader.download_video`
(bot.py lines 385-389): the first directory entry with an accepted extension
is returned; if none matches, `RuntimeError("Downloaded file not found")`.
The returned entry is the basename of the path handed to the orchestrator
(the code returns `os.path.join(output_dir, file)` and the orchestrator
takes `os.path.basename` of it again at line 551). -/
def find_downloaded_file (files : List String) : Except String String :=
  match files.find? (fun f => video_exts.any (fun e => ends_with f e)) with
  | some f => .ok f
  | none => .error "Downloaded file not found"

/-- The filename chosen in `handle_file` (bot.py lines 579-586): the media
attribute `file_name` when present and truthy, else `photo_{uid}.jpg` built
from the file unique id. -/
def direct_file_name (fn : Option String) (uid : String) : String :=
  if truthyStr fn then fn.getD "" else "photo_" ++ uid ++ ".jpg"

/-- One `request.next_chunk()` outcome of the Drive resumable upload loop
(bot.py lines 424-430): an optional status (its `resumable_progress` byte
count) and, once finalised, a response record whose optional field is
`webViewLink`. -/
abbrev DriveChunk := Option Nat × Option (Option String)

/-- The chunked upload loop and finalisation of
`upload_to_drive_with_progress` (bot.py lines 424-432): iterate while the
response is `None`; on finalisation `response["webViewLink"]` raises
`KeyError` when the field is absent, which the `except` clause at lines
434-436 re-raises. An exhausted stream without finalisation means the real
loop would never leave its `while`; it is mapped to an error here. -/
def drive_upload_chunks : List DriveChunk → Except String String
  | [] => .error "upload stream ended without finalization"
  | (_, none) :: rest => drive_upload_chunks rest
  | (_, some final) :: _ =>
      match final with
      | some link => .ok link
      | none => .error "KeyError: webViewLink"

/-- The failure message of `handle_youtube_url`
(`f"❌ **Download failed:** {str(e)}"`, bot.py line 570). -/
def download_failed_msg (e : String) : String := "❌ **Download failed:** " ++ e

/-- The failure message of `handle_file`
(`f"❌ **Upload failed:** {str(e)}"`, bot.py line 613). -/
def upload_failed_msg (e : String) : String := "❌ **Upload failed:** " ++ e

/-- The body of the `try` block of `handle_youtube_url` (bot.py lines
521-567): info resolution, download (including the explicit
`RuntimeError("Download failed - file not found")` raised when the returned
path is falsy or does not exist, lines 547-548), then the Drive upload of
the staged path. Each stage is an `Except`-valued capability outcome. -/
def youtube_try_body (info : Except String Unit)
    (download_result : Except String String) (path_exists : String → Bool)
    (upload : String → Except String String) : Except String String :=
  match info with
  | .error e => .error e
  | .ok _ =>
    match download_result with
    | .error e => .error e
    | .ok video_path =>
      if video_path = "" || !(path_exists video_path) then
        .error "Download failed - file not found"
      else upload video_path

/-- `handle_youtube_url` at its orchestrator boundary (bot.py lines
521-572): the `try` body either produces a Drive link, rendered into the
success message, or raises, and the `except Exception` clause renders the
failure message; both are delivered through the progress-message sink. -/
def handle_youtube_url (info : Except String Unit)
    (download_result : Except String String) (path_exists : String → Bool)
    (upload : String → Except String String) : String :=
  match youtube_try_body info download_result path_exists upload with
  | .ok link => "✅ **YouTube Video Uploaded Successfully!** " ++ link
  | .error e => download_failed_msg e

/-- The body of the `try` block of `handle_file` (bot.py lines 590-610):
the platform download yields either a single file path or a directory
listing (with byte sizes); a directory goes through the largest-file
staging; the staged path is uploaded. -/
def file_try_body
    (download_media : Except String (String ⊕ List (String × Nat)))
    (upload : String → Except String String) : Except String String :=
  match download_media with
  | .error e => .error e
  | .ok (.inl path) => upload path
  | .ok (.inr entries) =>
    match stage_directory entries with
    | .error e => .error e
    | .ok path => upload path

/-- `handle_file` at its orchestrator boundary (bot.py lines 588-615). -/
def handle_file
    (download_media : Except String (String ⊕ List (String × Nat)))
    (upload : String → Except String String) : String :=
  match file_try_body download_media upload with
  | .ok link => "✅ **File uploaded successfully!** " ++ link
  | .error e => upload_failed_msg e

/-- A concrete tracker mid-transfer, used to instantiate several witnesses:
nonzero download bytes recorded, a known total size, cooldown stamp at 0. -/
def tracker_ex : ProgressTracker :=
  { file_name := "video.mp4"
    total_size := some 100
    uploaded_size := 0
    start_time := 0
    last_update := 0
    download_progress :=
      { downloaded := 10, total := 100, speed := some 7
        quality := some "720p", last_update_key := 0 } }

/-- The download emitter never propagates the sink outcome: its result is
the same pure conditional for every sink. -/
lemma check_download_eq (t : ProgressTracker) (now : Nat)
    (sink : Except String Unit) :
    check_and_update_download t now sink =
      if now - t.last_update < 3 then .ok (t, false)
      else if t.download_progress.downloaded = 0 then .ok (t, false)
      else .ok ({ t with last_update := now }, true) := by
  cases sink <;> rfl

/-- The upload emitter never propagates the sink outcome: its result is the
same pure conditional for every sink. -/
lemma check_upload_eq (t : ProgressTracker) (now u : Nat)
    (sink : Except String Unit) :
    update_upload t now u sink =
      if !(truthyNat t.total_size) then .ok (t, false)
      else if now - t.last_update < 2 then .ok (t, false)
      else .ok ({ t with last_update := now }, true) := by
  cases sink <;> rfl

/-- One download-emitter call either renders (cooldown elapsed, nonzero
bytes, stamp refreshed) or is a no-op on the state. -/
lemma download_step_cases (t : ProgressTracker) (now : Nat)
    (sink : Except String Unit) :
    (3 ≤ now - t.last_update ∧ t.download_progress.downloaded ≠ 0 ∧
      emittedD t now sink = true ∧
      nextD t now sink = { t with last_update := now }) ∨
    (emittedD t now sink = false ∧ nextD t now sink = t) := by
  unfold emittedD nextD
  rw [check_download_eq]
  split_ifs with h1 h2
  · exact Or.inr ⟨rfl, rfl⟩
  · exact Or.inr ⟨rfl, rfl⟩
  · exact Or.inl ⟨Nat.not_lt.mp h1, h2, rfl, rfl⟩

/-- One upload-emitter call either renders (total size truthy, cooldown
elapsed, stamp refreshed) or is a no-op on the state. -/
lemma upload_step_cases (t : ProgressTracker) (now u : Nat)
    (sink : Except String Unit) :
    (truthyNat t.total_size = true ∧ 2 ≤ now - t.last_update ∧
      emittedU t now u sink = true ∧
      nextU t now u sink = { t with last_update := now }) ∨
    (emittedU t now u sink = false ∧ nextU t now u sink = t) := by
  unfold emittedU nextU
  rw [check_upload_eq]
  split_ifs with h1 h2
  · exact Or.inr ⟨rfl, rfl⟩
  · exact Or.inr ⟨rfl, rfl⟩
  · refine Or.inl ⟨?_, Nat.not_lt.mp h2, rfl, rfl⟩
    cases hts : truthyNat t.total_size with
    | false => exact absurd (by rw [hts]; rfl) h1
    | true => rfl

/-- The download emitter renders exactly when the 3-unit cooldown has
elapsed and a nonzero byte count is recorded. -/
lemma emittedD_true_iff (t : ProgressTracker) (now : Nat)
    (sink : Except String Unit) :
    emittedD t now sink = true ↔
      3 ≤ now - t.last_update ∧ t.download_progress.downloaded ≠ 0 := by
  unfold emittedD
  rw [check_download_eq]
  split_ifs with h1 h2
  · constructor
    · intro h
      exact h.elim
    · rintro ⟨h3, -⟩
      exact absurd h3 (by omega)
  · constructor
    · intro h
      exact h.elim
    · rintro ⟨-, h4⟩
      exact absurd h2 h4
  · constructor
    · intro _
      exact ⟨Nat.not_lt.mp h1, h2⟩
    · intro _
      rfl

/-- The upload emitter renders exactly when the total size is truthy and
the 2-unit cooldown has elapsed. -/
lemma emittedU_true_iff (t : ProgressTracker) (now u : Nat)
    (sink : Except String Unit) :
    emittedU t now u sink = true ↔
      truthyNat t.total_size = true ∧ 2 ≤ now - t.last_update := by
  unfold emittedU
  rw [check_upload_eq]
  split_ifs with h1 h2
  · constructor
    · intro h
      exact h.elim
    · rintro ⟨h3, -⟩
      rw [h3] at h1
      simp at h1
  · constructor
    · intro h
      exact h.elim
    · rintro ⟨-, h4⟩
      exact absurd h4 (by omega)
  · constructor
    · intro _
      refine ⟨?_, Nat.not_lt.mp h2⟩
      cases hts : truthyNat t.total_size with
      | false => exact absurd (by rw [hts]; rfl) h1
      | true => rfl
    · intro _
      rfl

/-- The Python `max` fold returns a member of the listing whose size bounds
every listed size. -/
lemma select_largest_mem_max (es : List (String × Nat)) (e : String × Nat) :
    select_largest e es ∈ e :: es ∧
      ∀ p ∈ e :: es, p.2 ≤ (select_largest e es).2 := by
  induction es generalizing e with
  | nil =>
    refine ⟨List.mem_cons_self _ _, ?_⟩
    intro p hp
    rw [List.mem_singleton] at hp
    subst hp
    exact le_refl _
  | cons x xs ih =>
    have step0 : select_largest e (x :: xs) =
        select_largest (if x.2 > e.2 then x else e) xs := rfl
    by_cases hgt : x.2 > e.2
    · have step : select_largest e (x :: xs) = select_largest x xs := by
        rw [step0, if_pos hgt]
      obtain ⟨hmem, hmax⟩ := ih x
      refine ⟨?_, ?_⟩
      · rw [step]
        exact List.mem_cons_of_mem _ hmem
      · intro p hp
        rw [step]
        rcases List.mem_cons.mp hp with rfl | h
        · exact le_trans (Nat.le_of_lt hgt) (hmax x (List.mem_cons_self _ _))
        · exact hmax p h
    · have step : select_largest e (x :: xs) = select_largest e xs := by
        rw [step0, if_neg hgt]
      obtain ⟨hmem, hmax⟩ := ih e
      refine ⟨?_, ?_⟩
      · rw [step]
        rcases List.mem_cons.mp hmem with h | h
        · exact List.mem_cons.mpr (Or.inl h)
        · exact List.mem_cons_of_mem _ (List.mem_cons_of_mem _ h)
      · intro p hp
        rw [step]
        rcases List.mem_cons.mp hp with rfl | h
        · exact hmax p (List.mem_cons_self _ _)
        · rcases List.mem_cons.mp h with rfl | h2
          · exact le_trans (Nat.not_lt.mp hgt) (hmax e (List.mem_cons_self _ _))
          · exact hmax p (List.mem_cons_of_mem _ h2)

/-- C1: any exception raised during acquisition, staging or upload inside
the per-request try block of either handler is caught at the orchestrator
boundary and rendered into the failure message delivered through the
progress sink; the handler returns that message normally (its result type
carries no exception), so the exception never propagates out of the handler
or terminates the process. -/
theorem C1_errors_caught_at_boundary (info : Except String Unit)
    (download_result : Except String String) (path_exists : String → Bool)
    (upload : String → Except String String)
    (download_media : Except String (String ⊕ List (String × Nat)))
    (e : String) :
    (youtube_try_body info download_result path_exists upload = .error e →
      handle_youtube_url info download_result path_exists upload =
        download_failed_msg e) ∧
    (file_try_body download_media upload = .error e →
      handle_file download_media upload = upload_failed_msg e) := by
  constructor
  · intro h
    unfold handle_youtube_url
    rw [h]
  · intro h
    unfold handle_file
    rw [h]

/-- Witness for C1: a failed remote download and a failed platform download
are both converted into the corresponding failure message. -/
theorem C1_errors_caught_at_boundary_witness :
    handle_youtube_url (.ok ()) (.error "network unreachable")
        (fun _ => true) (fun _ => .ok "link") =
      download_failed_msg "network unreachable" ∧
    handle_file (.error "media download failed") (fun _ => .ok "link") =
      upload_failed_msg "media download failed" :=
  ⟨(C1_errors_caught_at_boundary (.ok ()) (.error "network unreachable")
      (fun _ => true) (fun _ => .ok "link") (.error "x")
      "network unreachable").1 rfl,
   (C1_errors_caught_at_boundary (.ok ()) (.error "x") (fun _ => true)
      (fun _ => .ok "link") (.error "media download failed")
      "media download failed").2 rfl⟩

/-- C2: the quality hint is resolved through the fixed precedence table:
`best` caps at height 1080 plus best audio, each named rung caps at its own
height with next-lower fallbacks, `audio` is audio-only, and every hint
outside the table resolves to the same selector as `best`, never to an
error. -/
theorem C2_quality_precedence :
    get_format_string "best" = "bestvideo[height<=1080]+bestaudio/best" ∧
    get_format_string "1080p" =
      "bestvideo[height<=1080]+bestaudio/best[height<=1080]/best" ∧
    get_format_string "720p" =
      "bestvideo[height<=720]+bestaudio/best[height<=720]/best" ∧
    get_format_string "480p" =
      "bestvideo[height<=480]+bestaudio/best[height<=480]/best" ∧
    get_format_string "360p" =
      "bestvideo[height<=360]+bestaudio/best[height<=360]/best" ∧
    get_format_string "audio" = "bestaudio/best" ∧
    ∀ q : String, q ∉ ["best", "1080p", "720p", "480p", "360p", "audio"] →
      get_format_string q = get_format_string "best" := by
  refine ⟨rfl, rfl, rfl, rfl, rfl, rfl, ?_⟩
  intro q hq
  simp only [List.mem_cons, List.not_mem_nil, or_false, not_or] at hq
  obtain ⟨h1, h2, h3, h4, h5, h6⟩ := hq
  simp [get_format_string, format_options, List.lookup,
    beq_eq_false_iff_ne.mpr h1, beq_eq_false_iff_ne.mpr h2,
    beq_eq_false_iff_ne.mpr h3, beq_eq_false_iff_ne.mpr h4,
    beq_eq_false_iff_ne.mpr h5, beq_eq_false_iff_ne.mpr h6]

/-- Witness for C2: the out-of-table hint 2160p resolves to the selector of
`best`. -/
theorem C2_quality_precedence_witness :
    get_format_string "2160p" = get_format_string "best" :=
  C2_quality_precedence.2.2.2.2.2.2 "2160p" (by decide)

/-- C3: when the platform download of a direct transfer returns a
directory, a non-empty listing stages the file of maximum byte size (for
sizes 10, 999, 5 the 999-byte file), and an empty listing raises instead of
staging anything. -/
theorem C3_largest_file_staging :
    (∀ entries : List (String × Nat), entries ≠ [] →
      ∃ name size, stage_directory entries = .ok name ∧
        (name, size) ∈ entries ∧ ∀ p ∈ entries, p.2 ≤ size) ∧
    stage_directory [] = .error "Downloaded photo directory is empty" ∧
    stage_directory [("a", 10), ("b", 999), ("c", 5)] = .ok "b" := by
  refine ⟨?_, rfl, rfl⟩
  intro entries hne
  cases entries with
  | nil => exact absurd rfl hne
  | cons e es =>
    obtain ⟨hmem, hmax⟩ := select_largest_mem_max es e
    exact ⟨(select_largest e es).1, (select_largest e es).2, rfl,
      Prod.mk.eta ▸ hmem, hmax⟩

/-- Witness for C3: on a singleton directory listing the staged artifact is
that file and its size bounds the listing. -/
theorem C3_largest_file_staging_witness :
    ∃ name size, stage_directory [("x", 7)] = .ok name ∧
      (name, size) ∈ [("x", 7)] ∧ ∀ p ∈ [("x", 7)], p.2 ≤ size :=
  C3_largest_file_staging.1 [("x", 7)] (by decide)

/-- C4: two emission attempts on one tracker whose timestamps lie within
one cooldown window (3 time units for the download emitter, 2 for the
upload emitter) render at most one emission, and a single attempt made
after the cooldown has elapsed with new nonzero data (nonzero recorded
download bytes, respectively a nonzero known upload total) renders exactly
one emission. -/
theorem C4_cooldown_rate_limit (s : ProgressTracker) (t1 t2 u1 u2 : Nat)
    (k1 k2 : Except String Unit) :
    (t2 - t1 < 3 →
      ¬(emittedD s t1 k1 = true ∧ emittedD (nextD s t1 k1) t2 k2 = true)) ∧
    (t2 - t1 < 2 →
      ¬(emittedU s t1 u1 k1 = true ∧
        emittedU (nextU s t1 u1 k1) t2 u2 k2 = true)) ∧
    (3 ≤ t1 - s.last_update → s.download_progress.downloaded ≠ 0 →
      emittedD s t1 k1 = true) ∧
    (2 ≤ t1 - s.last_update → truthyNat s.total_size = true →
      emittedU s t1 u1 k1 = true) := by
  refine ⟨?_, ?_, ?_, ?_⟩
  · intro hw ⟨h1, h2⟩
    rcases download_step_cases s t1 k1 with ⟨-, -, -, hnext⟩ | ⟨hfalse, -⟩
    · rw [hnext] at h2
      obtain ⟨hcd, -⟩ := (emittedD_true_iff _ _ _).mp h2
      simp only at hcd
      omega
    · rw [h1] at hfalse
      cases hfalse
  · intro hw ⟨h1, h2⟩
    rcases upload_step_cases s t1 u1 k1 with ⟨-, -, -, hnext⟩ | ⟨hfalse, -⟩
    · rw [hnext] at h2
      obtain ⟨-, hcd⟩ := (emittedU_true_iff _ _ _ _).mp h2
      simp only at hcd
      omega
    · rw [h1] at hfalse
      cases hfalse
  · intro hcd hnz
    exact (emittedD_true_iff _ _ _).mpr ⟨hcd, hnz⟩
  · intro hcd hts
    exact (emittedU_true_iff _ _ _ _).mpr ⟨hts, hcd⟩

/-- Witness for C4: with the cooldown freshly elapsed an attempt emits, and
a second attempt one time unit later is suppressed, for both emitters. -/
theorem C4_cooldown_rate_limit_witness :
    ¬(emittedD tracker_ex 3 (.ok ()) = true ∧
      emittedD (nextD tracker_ex 3 (.ok ())) 4 (.ok ()) = true) ∧
    ¬(emittedU tracker_ex 2 50 (.ok ()) = true ∧
      emittedU (nextU tracker_ex 2 50 (.ok ())) 3 60 (.ok ()) = true) ∧
    emittedD tracker_ex 3 (.ok ()) = true ∧
    emittedU tracker_ex 2 50 (.ok ()) = true := by
  have h1 := C4_cooldown_rate_limit tracker_ex 3 4 50 60 (.ok ()) (.ok ())
  have h2 := C4_cooldown_rate_limit tracker_ex 2 3 50 60 (.ok ()) (.ok ())
  exact ⟨h1.1 (by decide), h2.2.1 (by decide),
    h1.2.2.1 (by decide) (by decide), h2.2.2.2 (by decide) (by decide)⟩

/-- C5 counterexample: on a fresh direct-transfer tracker (known total 100
bytes, no byte recorded anywhere), an upload emission attempt with a
recorded byte count of 0 renders an emission once the cooldown has elapsed,
so the first upload emission does not require a nonzero byte count. -/
theorem C5_counterexample_zero_byte_emission :
    emittedU (initTracker "doc.pdf" (some 100) 0) 5 0 (.ok ()) = true ∧
    (initTracker "doc.pdf" (some 100) 0).uploaded_size = 0 ∧
    (initTracker "doc.pdf" (some 100) 0).download_progress.downloaded = 0 := by
  refine ⟨rfl, rfl, rfl⟩

/-- C5 as amended: the download emitter never renders while the recorded
download byte count is zero, while the upload emitter is gated only by a
truthy total size (and the cooldown), not by the byte count. -/
theorem C5_first_emission_gating (s : ProgressTracker) (now u : Nat)
    (k : Except String Unit) :
    (s.download_progress.downloaded = 0 → emittedD s now k = false) ∧
    (truthyNat s.total_size = false → emittedU s now u k = false) := by
  constructor
  · intro hz
    cases he : emittedD s now k with
    | false => rfl
    | true =>
      obtain ⟨-, hnz⟩ := (emittedD_true_iff _ _ _).mp he
      exact absurd hz hnz
  · intro hts
    cases he : emittedU s now u k with
    | false => rfl
    | true =>
      obtain ⟨hts2, -⟩ := (emittedU_true_iff _ _ _ _).mp he
      rw [hts] at hts2
      cases hts2

/-- Witness for C5 as amended: a tracker with zero recorded download bytes
never renders a download emission, and one with an unknown total renders no
upload emission. -/
theorem C5_first_emission_gating_witness :
    emittedD (initTracker "doc.pdf" (some 100) 0) 9 (.ok ()) = false ∧
    emittedU (initTracker "v.mp4" none 0) 9 0 (.ok ()) = false :=
  ⟨(C5_first_emission_gating (initTracker "doc.pdf" (some 100) 0) 9 0
      (.ok ())).1 rfl,
   (C5_first_emission_gating (initTracker "v.mp4" none 0) 9 0 (.ok ())).2 rfl⟩

/-- C6: a failing sink (the UI message edit raising) is swallowed by both
emitters: the call returns normally with the same result as with a healthy
sink, so a sink failure can never abort the transfer. -/
theorem C6_sink_failure_swallowed (t : ProgressTracker) (now u : Nat)
    (err : String) :
    (∃ r, check_and_update_download t now (.error err) = .ok r) ∧
    (∃ r, update_upload t now u (.error err) = .ok r) ∧
    check_and_update_download t now (.error err) =
      check_and_update_download t now (.ok ()) ∧
    update_upload t now u (.error err) = update_upload t now u (.ok ()) := by
  refine ⟨?_, ?_, ?_, ?_⟩
  · rw [check_download_eq]
    split_ifs <;> exact ⟨_, rfl⟩
  · rw [check_upload_eq]
    split_ifs <;> exact ⟨_, rfl⟩
  · rw [check_download_eq, check_download_eq]
  · rw [check_upload_eq, check_upload_eq]

/-- A 60-character video title, longer than the 50-character truncation
threshold of `download_video`. -/
def long_title : String :=
  "aaaaaaaaaaaaaaaaaaaaaaaaaaaaaaaaaaaaaaaaaaaaaaaaaaaaaaaaaaaa"

/-- C7 counterexample: for a remote transfer of a 60-character title the
extraction engine writes `%(title)s.%(ext)s`, the post-download scan stages
that file, and the orchestrator passes its basename to the uploader
(bot.py lines 551-557); that destination name is the full, un-truncated
title plus extension and differs from the truncated-with-ellipsis name the
claim requires. -/
theorem C7_counterexample_untruncated_destination :
    find_downloaded_file [long_title ++ ".mp4"] =
      .ok (long_title ++ ".mp4") ∧
    long_title ++ ".mp4" ≠ download_display_name long_title ∧
    (long_title ++ ".mp4").length = 64 ∧
    (download_display_name long_title).length = 57 := by
  refine ⟨rfl, by decide, by decide, by decide⟩

/-- C7 as amended: the truncated title (50-character prefix plus ellipsis,
canonical `.mp4` extension) is only the progress-display name set during a
remote download; the destination name handed to the uploader is the
basename of the staged file found by the extension scan; for direct
transfers it is the original filename, with a `photo_<uid>.jpg` fallback
when the media carries no truthy filename. -/
theorem C7_destination_names (title f : String) (files : List String)
    (fn : Option String) (uid n : String) :
    download_display_name title = safe_title title ++ ".mp4" ∧
    (title.length ≤ 50 → safe_title title = title) ∧
    (50 < title.length → safe_title title = py_take title 50 ++ "...") ∧
    (find_downloaded_file files = .ok f →
      f ∈ files ∧ video_exts.any (fun e => ends_with f e) = true) ∧
    (truthyStr fn = false →
      direct_file_name fn uid = "photo_" ++ uid ++ ".jpg") ∧
    (n ≠ "" → direct_file_name (some n) uid = n) := by
  refine ⟨rfl, ?_, ?_, ?_, ?_, ?_⟩
  · intro hle
    unfold safe_title py_take
    rw [if_neg (by omega), String.append_empty, List.take_of_length_le hle]
  · intro hgt
    unfold safe_title
    rw [if_pos hgt]
  · intro hf
    unfold find_downloaded_file at hf
    cases hfind : files.find?
        (fun f => video_exts.any (fun e => ends_with f e)) with
    | none => rw [hfind] at hf; cases hf
    | some a =>
      rw [hfind] at hf
      cases hf
      exact ⟨List.mem_of_find?_eq_some hfind, by simpa using List.find?_some hfind⟩
  · intro hts
    simp [direct_file_name, hts]
  · intro hn
    simp [direct_file_name, truthyStr, hn]

/-- Witness for C7 as amended: a short title is kept whole, the long title
is truncated with the ellipsis marker in the display name, the extension
scan returns a listed file with an accepted extension, and the direct-path
names resolve as stated. -/
theorem C7_destination_names_witness :
    safe_title "short" = "short" ∧
    safe_title long_title = py_take long_title 50 ++ "..." ∧
    ("clip.mp4" ∈ ["notes.txt", "clip.mp4"] ∧
      video_exts.any (fun e => ends_with "clip.mp4" e) = true) ∧
    direct_file_name none "UID1" = "photo_" ++ "UID1" ++ ".jpg" ∧
    direct_file_name (some "report.pdf") "UID1" = "report.pdf" := by
  refine ⟨(C7_destination_names "short" "f" [] none "u" "n").2.1 (by decide),
    (C7_destination_names long_title "f" [] none "u" "n").2.2.1 (by decide),
    (C7_destination_names "t" "clip.mp4" ["notes.txt", "clip.mp4"] none "u"
      "n").2.2.2.1 rfl,
    (C7_destination_names "t" "f" [] none "UID1" "n").2.2.2.2.1 rfl,
    (C7_destination_names "t" "f" [] none "UID1"
      "report.pdf").2.2.2.2.2 (by decide)⟩

/-- C8: when the storage capability reports finalization but the
finalization response carries no shareable link, the uploader raises
(`response["webViewLink"]` is a `KeyError`, re-raised by the handler at
bot.py lines 434-436) rather than returning an empty or missing link. -/
theorem C8_missing_final_link (pre rest : List DriveChunk) (st : Option Nat)
    (h : ∀ c ∈ pre, c.2 = none) :
    drive_upload_chunks (pre ++ (st, some none) :: rest) =
      .error "KeyError: webViewLink" := by
  induction pre with
  | nil => rfl
  | cons c cs ih =>
    obtain ⟨c1, c2⟩ := c
    have hc2 : c2 = none := h (c1, c2) (List.mem_cons_self _ _)
    subst hc2
    rw [List.cons_append]
    show drive_upload_chunks (cs ++ (st, some none) :: rest) = _
    exact ih (fun x hx => h x (List.mem_cons_of_mem _ hx))

/-- Witness for C8: a stream with one acknowledged progress chunk and a
linkless finalization ends in the KeyError. -/
theorem C8_missing_final_link_witness :
    drive_upload_chunks [(some 5, none), (some 10, some none)] =
      .error "KeyError: webViewLink" :=
  C8_missing_final_link [(some 5, none)] [] (some 10) (by decide)

/-- C9 counterexample: `update_download_sync` overwrites the stored byte
count unconditionally, so feeding 100 then 50 makes the stored
bytes-transferred value decrease within the download phase, refuting
monotonic non-decrease over all update sequences. -/
theorem C9_counterexample_decreasing_bytes :
    (update_download_sync
        (update_download_sync (initTracker "v.mp4" none 0) 100 (some 100)
          none none)
        50 none none none).download_progress.downloaded <
      (update_download_sync (initTracker "v.mp4" none 0) 100 (some 100)
        none none).download_progress.downloaded := by
  decide

/-- C9 as amended: the stored download byte count always equals the last
supplied value (so it is non-decreasing exactly when the supplied sequence
is), and the tracker itself keeps no phase field: recording upload progress
or attempting either emission leaves the whole download-progress record and
the total size untouched (only the shared cooldown stamp moves). -/
theorem C9_last_write_wins (s : ProgressTracker) (b : Nat)
    (tot sp : Option Nat) (q : Option String) (now u : Nat)
    (k : Except String Unit) :
    (update_download_sync s b tot sp q).download_progress.downloaded = b ∧
    (s.download_progress.downloaded ≤ b →
      s.download_progress.downloaded ≤
        (update_download_sync s b tot sp q).download_progress.downloaded) ∧
    (nextU s now u k).download_progress = s.download_progress ∧
    (nextD s now k).download_progress = s.download_progress ∧
    (nextU s now u k).total_size = s.total_size ∧
    (nextD s now k).total_size = s.total_size := by
  refine ⟨rfl, ?_, ?_, ?_, ?_, ?_⟩
  · intro h
    exact h
  · rcases upload_step_cases s now u k with ⟨-, -, -, hn⟩ | ⟨-, hn⟩ <;> rw [hn]
  · rcases download_step_cases s now k with ⟨-, -, -, hn⟩ | ⟨-, hn⟩ <;> rw [hn]
  · rcases upload_step_cases s now u k with ⟨-, -, -, hn⟩ | ⟨-, hn⟩ <;> rw [hn]
  · rcases download_step_cases s now k with ⟨-, -, -, hn⟩ | ⟨-, hn⟩ <;> rw [hn]

/-- Witness for C9 as amended: a non-decreasing supplied value keeps the
stored value non-decreasing, and an upload step leaves the download record
unchanged. -/
theorem C9_last_write_wins_witness :
    (update_download_sync tracker_ex 20 none none
        none).download_progress.downloaded = 20 ∧
    tracker_ex.download_progress.downloaded ≤
      (update_download_sync tracker_ex 20 none none
        none).download_progress.downloaded ∧
    (nextU tracker_ex 9 50 (.ok ())).download_progress =
      tracker_ex.download_progress := by
  have h := C9_last_write_wins tracker_ex 20 none none none 9 50 (.ok ())
  exact ⟨h.1, h.2.1 (by decide), h.2.2.1⟩

/-- C10: one download-progress update overwrites the downloaded-bytes field
unconditionally (even with a smaller or zero value), while the total, speed
and quality fields change only when the supplied value is truthy: 0 or None
leaves the stored field untouched. -/
theorem C10_partial_update_semantics (s : ProgressTracker) (b : Nat)
    (tot sp : Option Nat) (q : Option String) :
    (update_download_sync s b tot sp q).download_progress.downloaded = b ∧
    (truthyNat tot = false →
      (update_download_sync s b tot sp q).download_progress.total =
        s.download_progress.total) ∧
    (truthyNat tot = true →
      (update_download_sync s b tot sp q).download_progress.total =
        tot.getD 0) ∧
    (truthyNat sp = false →
      (update_download_sync s b tot sp q).download_progress.speed =
        s.download_progress.speed) ∧
    (truthyNat sp = true →
      (update_download_sync s b tot sp q).download_progress.speed = sp) ∧
    (truthyStr q = false →
      (update_download_sync s b tot sp q).download_progress.quality =
        s.download_progress.quality) ∧
    (truthyStr q = true →
      (update_download_sync s b tot sp q).download_progress.quality = q) := by
  refine ⟨rfl, ?_, ?_, ?_, ?_, ?_, ?_⟩ <;> intro h <;>
    simp [update_download_sync, h]

/-- Witness for C10: a zero byte count overwrites the stored 10, while a
zero total, absent speed and absent quality leave the stored fields as they
were. -/
theorem C10_partial_update_semantics_witness :
    (update_download_sync tracker_ex 0 (some 0) none
        none).download_progress.downloaded = 0 ∧
    (update_download_sync tracker_ex 0 (some 0) none
        none).download_progress.total = tracker_ex.download_progress.total ∧
    (update_download_sync tracker_ex 0 (some 0) none
        none).download_progress.speed = tracker_ex.download_progress.speed ∧
    (update_download_sync tracker_ex 0 (some 0) none
        none).download_progress.quality =
      tracker_ex.download_progress.quality := by
  have h := C10_partial_update_semantics tracker_ex 0 (some 0) none none
  exact ⟨h.1, h.2.1 rfl, h.2.2.2.1 rfl, h.2.2.2.2.2.1 rfl⟩

end Bot
